import Mathlib

/-!
# Verification of the real-estate filtering-and-aggregation pipeline

Shallow embedding of the property-viewer core: the record normalizer's
free-text fallback extraction, the dashboard predicate filter, the
home-page client-side filter steps, and the market-statistics aggregator.

Conventions of the embedding:
* JS numbers are modelled as `ℚ`; `NaN` results of `parseFloat` /
  `parseInt` are modelled by `Option.none`.
* A value that may dynamically be `null`, a number or a string (the price
  column, which the aggregator defends against with a `typeof` check) is
  modelled by `JSNum`.
* Optional chaining `a?.b` over a nullable relation is modelled with
  `Option`; where the distinction between JS `undefined` (relation absent)
  and `null` (column empty) is observable, nested options are used.
* The regular-expression searches are modelled as explicit scans over the
  character list, faithful to the greedy, leftmost-match semantics of the
  concrete patterns on the inputs they are applied to.
-/

/-- A JS dynamic value sitting in the price column: `null`, a number, or a
string. -/
inductive JSNum where
  | null : JSNum
  | num (q : ℚ) : JSNum
  | str (s : String) : JSNum
deriving DecidableEq, Repr

/-- JS truthiness of a `JSNum`: `null`, `0` and `""` are falsy. -/
def JSNum.truthy : JSNum → Bool
  | .null => false
  | .num q => q != 0
  | .str s => s != ""

/-- JS truthiness of a nullable number: `null`/`undefined` and `0` are falsy. -/
def optQTruthy : Option ℚ → Bool
  | none => false
  | some q => q != 0

/-- JS truthiness of a nullable string: `null`/`undefined` and `""` are falsy. -/
def optStrTruthy : Option String → Bool
  | none => false
  | some s => s != ""

/-- Fold a digit list into a natural number (helper for the `parseInt` /
`parseFloat` models). -/
def digitsToNat (ds : List Char) : ℕ :=
  ds.foldl (fun n c => 10 * n + (c.toNat - '0'.toNat)) 0

/-- Modelled from JS `parseInt` restricted to the non-negative decimal
strings this program feeds it (filter text boxes and regex digit groups):
the leading digit run is parsed; no such run gives `NaN` (`none`). -/
def parseIntJS (s : String) : Option ℤ :=
  let ds := s.data.takeWhile Char.isDigit
  if ds.isEmpty then none else some (digitsToNat ds : ℤ)

/-- Modelled from JS `parseFloat` restricted to the non-negative decimal
literals this program feeds it: leading digits, then an optional `.`
fraction; no leading digits gives `NaN` (`none`). -/
def parseFloatJS (s : String) : Option ℚ :=
  let cs := s.data
  let ds := cs.takeWhile Char.isDigit
  if ds.isEmpty then none
  else
    match cs.drop ds.length with
    | '.' :: rest =>
        let fr := rest.takeWhile Char.isDigit
        some ((digitsToNat ds : ℚ) + (digitsToNat fr : ℚ) / (10 : ℚ) ^ fr.length)
    | _ => some (digitsToNat ds : ℚ)

/-- Location sub-record (`locations` join): city and district, both nullable. -/
structure Location where
  city : Option String
  district : Option String
deriving DecidableEq, Repr

/-- Construction sub-record (`construction_info` join), restricted to the
columns the filter and aggregator read. -/
structure ConstructionInfo where
  year : Option ℤ
  is_renovated : Option Bool
  is_furnished : Option Bool
  has_act16 : Option Bool
  act16_plan_date : Option String
deriving DecidableEq, Repr

/-- A normalized property record, restricted to the fields the predicate
filter and the aggregator read (see `src/property-viewer/src/types/property.ts`). -/
structure Property where
  id : String
  type : Option String
  price_value : JSNum
  area_m2 : Option ℚ
  is_private_seller : Option Bool
  location : Option Location
  construction_info : Option ConstructionInfo
  features : List String
deriving DecidableEq, Repr

/-- A raw joined record before the client-side transform: `features` may be
a null relation (`none`); its entries model the `{feature}` wrapper rows.
The image sub-list is not modelled (no claim concerns it). -/
structure RawProperty where
  id : String
  type : Option String
  price_value : JSNum
  area_m2 : Option ℚ
  is_private_seller : Option Bool
  location : Option Location
  construction_info : Option ConstructionInfo
  features : Option (List String)
deriving DecidableEq, Repr

/-- Source: `p.location?.district` (collapsing `undefined` and `null`, which every
use site treats alike). -/
def locDistrict (p : Property) : Option String :=
  p.location.bind Location.district

/-- Source: `p.construction_info?.is_renovated`: `none` models `undefined`
(relation absent), `some none` models `null` (column empty). -/
def renovVal (p : Property) : Option (Option Bool) :=
  p.construction_info.map ConstructionInfo.is_renovated

/-- Source: `p.construction_info?.is_furnished`, as in `renovVal`. -/
def furnVal (p : Property) : Option (Option Bool) :=
  p.construction_info.map ConstructionInfo.is_furnished

/-- Source: `p.construction_info?.has_act16`, as in `renovVal`. -/
def act16Val (p : Property) : Option (Option Bool) :=
  p.construction_info.map ConstructionInfo.has_act16

/-- Source: `p.construction_info?.year` (collapsing `undefined` and `null`). -/
def yearVal (p : Property) : Option ℤ :=
  p.construction_info.bind ConstructionInfo.year

/-- Source: `p.construction_info?.act16_plan_date` (collapsing `undefined` and `null`). -/
def planDateVal (p : Property) : Option String :=
  p.construction_info.bind ConstructionInfo.act16_plan_date

/-! ## Free-text fallback extraction (record normalizer)

Models the transform in `fetchProperties` (home page and dashboard page):
price via `/(\d+[\d\s]*)\s*EUR/`, area via
`/Площ:\s*(\d+(?:\.\d+)?)\s*(?:m2|кв\.м)/i`, district via
`/^([^,\n]+)(?:,|\n|$)/` guarded by a feature length below 50. -/

/-- ASCII and Cyrillic (А–Я) lower-casing as JS case-insensitive matching
canonicalizes the characters appearing in the patterns. -/
def jsCharLower (c : Char) : Char :=
  if 'A' ≤ c ∧ c ≤ 'Z' then Char.ofNat (c.toNat + 32)
  else if 'А' ≤ c ∧ c ≤ 'Я' then Char.ofNat (c.toNat + 32)
  else c

/-- Case-sensitive literal prefix test. -/
def startsWithList : List Char → List Char → Bool
  | [], _ => true
  | _ :: _, [] => false
  | p :: ps, c :: cs => p == c && startsWithList ps cs

/-- Case-insensitive literal prefix test (for the `/i`-flagged area pattern). -/
def startsWithCI : List Char → List Char → Bool
  | [], _ => true
  | _ :: _, [] => false
  | p :: ps, c :: cs => jsCharLower p == jsCharLower c && startsWithCI ps cs

/-- Character class `[\d\s]` of the price pattern. -/
def isDigitOrSpace (c : Char) : Bool := c.isDigit || c.isWhitespace

/-- Leftmost match of `/(\d+[\d\s]*)\s*EUR/`: at each digit position the
greedy digit/space run must be followed by the literal `EUR`; the captured
run is stripped of whitespace and parsed (`parseInt` of a digit string). -/
def priceScan : List Char → Option ℕ
  | [] => none
  | c :: cs =>
    if c.isDigit then
      let run := (c :: cs).takeWhile isDigitOrSpace
      if startsWithList "EUR".data ((c :: cs).drop run.length) then
        some (digitsToNat (run.filter Char.isDigit))
      else priceScan cs
    else priceScan cs

/-- Continuation of the area pattern after the `площ:` label:
`\s*(\d+(?:\.\d+)?)\s*(?:m2|кв\.м)` with greedy quantifiers; the captured
decimal is parsed as `parseFloat` would parse it. -/
def areaTail (cs : List Char) : Option ℚ :=
  let r2 := cs.dropWhile Char.isWhitespace
  let ds := r2.takeWhile Char.isDigit
  if ds.isEmpty then none
  else
    let r3 := r2.drop ds.length
    let frRest : List Char × List Char :=
      match r3 with
      | '.' :: r3' =>
          let f := r3'.takeWhile Char.isDigit
          if f.isEmpty then ([], r3) else (f, r3'.drop f.length)
      | _ => ([], r3)
    let r5 := frRest.2.dropWhile Char.isWhitespace
    if startsWithCI "m2".data r5 || startsWithCI "кв.м".data r5 then
      match frRest.1 with
      | [] => some (digitsToNat ds : ℚ)
      | fr => some ((digitsToNat ds : ℚ) + (digitsToNat fr : ℚ) / (10 : ℚ) ^ fr.length)
    else none

/-- Leftmost match of the case-insensitive area pattern: scan for the
`площ:` label and try the tail there; on failure resume at the next
position. -/
def areaScan : List Char → Option ℚ
  | [] => none
  | c :: cs =>
    if startsWithCI "площ:".data (c :: cs) then
      match areaTail ((c :: cs).drop 5) with
      | some q => some q
      | none => areaScan cs
    else areaScan cs

/-- Source: `/^([^,\n]+)(?:,|\n|$)/`: the maximal leading run without comma or
newline, required non-empty (the alternation after the greedy run always
succeeds). -/
def districtMatchJS (s : String) : Option String :=
  let run := s.data.takeWhile (fun c => !(c == ',' || c == '\n'))
  if run.isEmpty then none else some (String.mk run)

/-- The mutable locals `price` / `area` / `district` of the transform loop. -/
structure ExtractState where
  price : JSNum
  area : Option ℚ
  district : Option String
deriving DecidableEq, Repr

/-- One iteration of the `for (const feature of property.features)` loop:
each field is scanned only while its current value is falsy. -/
def extractStep (st : ExtractState) (f : String) : ExtractState :=
  ⟨if st.price.truthy then st.price
    else match priceScan f.data with
      | some n => JSNum.num (n : ℚ)
      | none => st.price,
   if optQTruthy st.area then st.area
    else match areaScan f.data with
      | some q => some q
      | none => st.area,
   if optStrTruthy st.district then st.district
    else match districtMatchJS f with
      | some d => if f.length < 50 then some d.trim else st.district
      | none => st.district⟩

/-- Initialize the locals from the structured columns and run the feature
loop (skipped when the `features` relation is null). -/
def extractFields (p : RawProperty) : ExtractState :=
  let init : ExtractState := ⟨p.price_value, p.area_m2, p.location.bind Location.district⟩
  match p.features with
  | none => init
  | some fs => fs.foldl extractStep init

/-- The client-side transform of one raw joined record: backfilled price,
area and district, location synthesized from a recovered district when the
relation is absent, features defaulted to `[]`. -/
def transform (p : RawProperty) : Property :=
  let st := extractFields p
  ⟨p.id, p.type, st.price, st.area, p.is_private_seller,
   (match p.location with
    | some loc => some loc
    | none => if optStrTruthy st.district then some ⟨none, st.district⟩ else none),
   p.construction_info,
   p.features.getD []⟩

/-! ## Dashboard predicate filter

Models `filteredProperties` of the `Dashboard` component: a conjunction of
per-field checks, each transcribing one early-`return false` block. -/

/-- Dashboard filter state (`DashboardProps.filters`). -/
structure DashFilters where
  district : String
  minYear : String
  maxYear : String
  isRenovated : Option Bool
  isFurnished : Option Bool
  minArea : String
  maxArea : String
  isPrivateSeller : Option Bool
  propertyType : List String
deriving DecidableEq, Repr

/-- Source: `filters.district && property.location?.district !== filters.district`:
the district must equal the search text exactly when the filter is active. -/
def dashDistrictCheck (f : DashFilters) (p : Property) : Bool :=
  if f.district = "" then true else locDistrict p == some f.district

/-- Source: `filters.propertyType.length > 0 && !filters.propertyType.includes(property.type || '')`. -/
def dashTypeCheck (f : DashFilters) (p : Property) : Bool :=
  if f.propertyType = [] then true else f.propertyType.contains (p.type.getD "")

/-- Source: `filters.minYear && property.construction_info?.year` guard, then
`parseInt` comparison (a `NaN` bound never rejects). -/
def dashMinYearCheck (f : DashFilters) (p : Property) : Bool :=
  if f.minYear = "" then true
  else match yearVal p with
    | none => true
    | some y =>
      if y = 0 then true
      else match parseIntJS f.minYear with
        | none => true
        | some m => !(y < m)

/-- Symmetric `maxYear` block. -/
def dashMaxYearCheck (f : DashFilters) (p : Property) : Bool :=
  if f.maxYear = "" then true
  else match yearVal p with
    | none => true
    | some y =>
      if y = 0 then true
      else match parseIntJS f.maxYear with
        | none => true
        | some m => !(m < y)

/-- Source: `filters.isRenovated !== null && property.construction_info?.is_renovated !== filters.isRenovated`. -/
def dashRenovCheck (f : DashFilters) (p : Property) : Bool :=
  match f.isRenovated with
  | none => true
  | some b => renovVal p == some (some b)

/-- Source: `filters.isFurnished !== null && ... is_furnished !== filters.isFurnished`. -/
def dashFurnCheck (f : DashFilters) (p : Property) : Bool :=
  match f.isFurnished with
  | none => true
  | some b => furnVal p == some (some b)

/-- Source: `filters.minArea && property.area_m2` guard (a null or zero area skips
the bound check), then `parseFloat` comparison. -/
def dashMinAreaCheck (f : DashFilters) (p : Property) : Bool :=
  if f.minArea = "" then true
  else match p.area_m2 with
    | none => true
    | some a =>
      if a = 0 then true
      else match parseFloatJS f.minArea with
        | none => true
        | some m => !(a < m)

/-- Symmetric `maxArea` block. -/
def dashMaxAreaCheck (f : DashFilters) (p : Property) : Bool :=
  if f.maxArea = "" then true
  else match p.area_m2 with
    | none => true
    | some a =>
      if a = 0 then true
      else match parseFloatJS f.maxArea with
        | none => true
        | some m => !(m < a)

/-- Source: `filters.isPrivateSeller !== null && property.is_private_seller !== filters.isPrivateSeller`. -/
def dashSellerCheck (f : DashFilters) (p : Property) : Bool :=
  match f.isPrivateSeller with
  | none => true
  | some b => p.is_private_seller == some b

/-- The whole per-record predicate of `filteredProperties`. -/
def dashKeep (f : DashFilters) (p : Property) : Bool :=
  dashDistrictCheck f p && dashTypeCheck f p &&
  dashMinYearCheck f p && dashMaxYearCheck f p &&
  dashRenovCheck f p && dashFurnCheck f p &&
  dashMinAreaCheck f p && dashMaxAreaCheck f p &&
  dashSellerCheck f p

/-- Source: `properties.filter(...)` of the Dashboard component. -/
def dashFilter (f : DashFilters) (l : List Property) : List Property :=
  l.filter (dashKeep f)

/-! ## Home-page client-side filter steps

Models the post-fetch filters of `fetchProperties` in
`src/property-viewer/src/app/page.tsx` (lines 428–481); the remaining
predicates of that page are pushed into the server query. -/

/-- Home-page filter state, restricted to the client-side fields. -/
structure PageFilters where
  minYear : String
  maxYear : String
  isRenovated : Option Bool
  isFurnished : Option Bool
  hasAct16 : Option Bool
  minAct16Date : String
  maxAct16Date : String
deriving DecidableEq, Repr

/-- Per-record predicate of the construction-year step: a record with a
falsy year is kept; otherwise both active, parseable bounds must hold. -/
def pageYearKeep (minY maxY : String) (p : Property) : Bool :=
  match yearVal p with
  | none => true
  | some y =>
    if y = 0 then true
    else
      !((minY != "" && (match parseIntJS minY with
            | none => false
            | some m => y < m)) ||
        (maxY != "" && (match parseIntJS maxY with
            | none => false
            | some m => m < y)))

/-- Source: `if (filters.minYear || filters.maxYear) { transformedData = transformedData.filter(...) }`. -/
def pageYearStep (minY maxY : String) (l : List Property) : List Property :=
  if minY = "" ∧ maxY = "" then l else l.filter (pageYearKeep minY maxY)

/-- The renovation step keeps records whose field is `undefined` (relation
absent) or strictly equal to the selected value. -/
def pageRenovStep (fv : Option Bool) (l : List Property) : List Property :=
  match fv with
  | none => l
  | some b => l.filter (fun p => p.construction_info == none || renovVal p == some (some b))

/-- Furnishing step, same shape as `pageRenovStep`. -/
def pageFurnStep (fv : Option Bool) (l : List Property) : List Property :=
  match fv with
  | none => l
  | some b => l.filter (fun p => p.construction_info == none || furnVal p == some (some b))

/-- Act-16 step, same shape as `pageRenovStep`. -/
def pageAct16Step (fv : Option Bool) (l : List Property) : List Property :=
  match fv with
  | none => l
  | some b => l.filter (fun p => p.construction_info == none || act16Val p == some (some b))

/-- Source: `new Date` comparison modelled on the ISO date strings stored in
`act16_plan_date`, where date order is lexicographic string order. -/
def dateLE (a b : String) : Bool := a ≤ b

/-- Minimum planned-date step: records with a falsy date are kept. -/
def pageMinDateStep (minD : String) (l : List Property) : List Property :=
  if minD = "" then l
  else l.filter (fun p =>
    match planDateVal p with
    | none => true
    | some d => if d = "" then true else dateLE minD d)

/-- Maximum planned-date step: records with a falsy date are kept. -/
def pageMaxDateStep (maxD : String) (l : List Property) : List Property :=
  if maxD = "" then l
  else l.filter (fun p =>
    match planDateVal p with
    | none => true
    | some d => if d = "" then true else dateLE d maxD)

/-- The whole client-side filter chain, in source order. -/
def pageClientFilter (f : PageFilters) (l : List Property) : List Property :=
  pageMaxDateStep f.maxAct16Date
    (pageMinDateStep f.minAct16Date
      (pageAct16Step f.hasAct16
        (pageFurnStep f.isFurnished
          (pageRenovStep f.isRenovated
            (pageYearStep f.minYear f.maxYear l)))))

/-! ## Aggregator (market statistics)

Models `validProperties`, the group filters and the averages of the
`Dashboard` component (`fetchMarketStats` on the home page is the same
computation up to `Math.round`).  The in-place coercion
`p.price_value = price` is modelled by explicit state passing: the
aggregate returns the statistics together with the updated record list.
The debug `sort` on the temporary `validProperties` array permutes only
that array; every fold below it is permutation-invariant over `ℚ`, so the
embedding keeps the filter order. -/

/-- Source: `typeof p.price_value === 'string' ? parseFloat(p.price_value) : p.price_value`;
`none` covers both `null` and `NaN` outcomes. -/
def coercePrice : JSNum → Option ℚ
  | .null => none
  | .num q => some q
  | .str s => parseFloatJS s

/-- Source: `/^20\d{2}/` on a district string. -/
def districtLooksLikeYear (s : String) : Bool :=
  match s.data with
  | '2' :: '0' :: c :: d :: _ => c.isDigit && d.isDigit
  | _ => false

/-- Source: `p.location?.district?.match(/^20\d{2}/)` truthiness. -/
def districtYearFlag (p : Property) : Bool :=
  match locDistrict p with
  | none => false
  | some d => districtLooksLikeYear d

/-- Source: `price && price > 0 && !isNaN(price) && !districtLooksLikeYear`. -/
def hasValidPrice (p : Property) : Bool :=
  match coercePrice p.price_value with
  | none => false
  | some q => decide (0 < q) && !districtYearFlag p

/-- Replace the price field (helper for the in-place coercion). -/
def setPriceNum (p : Property) (q : ℚ) : Property :=
  ⟨p.id, p.type, JSNum.num q, p.area_m2, p.is_private_seller,
   p.location, p.construction_info, p.features⟩

/-- Source: `if (hasValidPrice) { p.price_value = price }`: the numeric coercion is
stored back into the record for valid records only. -/
def coerceRecord (p : Property) : Property :=
  match coercePrice p.price_value with
  | some q => if hasValidPrice p then setPriceNum p q else p
  | none => p

/-- The numeric price of a (coerced) record, as read by the sums. -/
def priceQ (p : Property) : ℚ :=
  match p.price_value with
  | .num q => q
  | _ => 0

/-- Source: `filteredProperties.filter(p => ...)` with its side effect: the records
after the pass, followed by the valid subset. -/
def processRecords (l : List Property) : List Property :=
  l.map coerceRecord

/-- The `validProperties` array. -/
def validProperties (l : List Property) : List Property :=
  (processRecords l).filter hasValidPrice

/-- Source: `p.area_m2 && p.area_m2 > 0 && !isNaN(p.area_m2)`. -/
def areaPositive (p : Property) : Bool :=
  match p.area_m2 with
  | none => false
  | some a => decide (0 < a)

/-- The `validPropertiesWithArea` array. -/
def validPropertiesWithArea (l : List Property) : List Property :=
  (validProperties l).filter areaPositive

/-- The `propertiesWithAct16` array (`has_act16 === true`). -/
def propertiesWithAct16 (l : List Property) : List Property :=
  (validProperties l).filter (fun p => act16Val p == some (some true))

/-- The `propertiesWithoutAct16` array (`has_act16 === false`). -/
def propertiesWithoutAct16 (l : List Property) : List Property :=
  (validProperties l).filter (fun p => act16Val p == some (some false))

/-- The `renovatedProperties` array (`is_renovated === true`). -/
def renovatedProperties (l : List Property) : List Property :=
  (validProperties l).filter (fun p => renovVal p == some (some true))

/-- Source: `reduce((sum, p) => sum + p.price_value, 0)`. -/
def sumPrices (l : List Property) : ℚ :=
  l.foldl (fun s p => s + priceQ p) 0

/-- Zero-guarded arithmetic mean of prices over a group. -/
def meanPriceOf (g : List Property) : ℚ :=
  if 0 < g.length then sumPrices g / (g.length : ℚ) else 0

/-- Source: `p.area_m2 || 1` as used inside the price-per-m² sum. -/
def areaOr1 (p : Property) : ℚ :=
  match p.area_m2 with
  | none => 1
  | some a => if a = 0 then 1 else a

/-- Zero-guarded mean of per-record `price / area` ratios. -/
def meanPricePerAreaOf (g : List Property) : ℚ :=
  if 0 < g.length then
    g.foldl (fun s p => s + priceQ p / areaOr1 p) 0 / (g.length : ℚ)
  else 0

/-- One per-type partition entry of `propertyTypeStats` /
`propertyTypeStatsArray`. -/
structure TypeStat where
  type : String
  count : ℕ
  sum : ℚ
  min : ℚ
  max : ℚ
deriving DecidableEq, Repr

/-- One step of the `propertyTypeStats` reduce: update the insertion-ordered
partition table (a fresh type starts at `min = max = price`, matching
`Math.min(Infinity, price)` / `Math.max(-Infinity, price)`). -/
def bumpType (t : String) (price : ℚ) : List TypeStat → List TypeStat
  | [] => [⟨t, 1, price, price, price⟩]
  | e :: rest =>
    if e.type = t then ⟨e.type, e.count + 1, e.sum + price, min e.min price, max e.max price⟩ :: rest
    else e :: bumpType t price rest

/-- The `propertyTypeStats` reduce over the valid records (`!p.type` skips
records with a falsy type). -/
def typeStatsTable (valid : List Property) : List TypeStat :=
  valid.foldl (fun acc p =>
    match p.type with
    | none => acc
    | some t => if t = "" then acc else bumpType t (priceQ p) acc) []

/-- Stable insertion into a list sorted descending by count (models the
stable `sort((a, b) => b.count - a.count)`). -/
def insertByCountDesc (x : TypeStat) : List TypeStat → List TypeStat
  | [] => [x]
  | y :: ys => if y.count < x.count then x :: y :: ys else y :: insertByCountDesc x ys

/-- Stable descending-by-count sort. -/
def sortByCountDesc (l : List TypeStat) : List TypeStat :=
  l.foldl (fun acc x => insertByCountDesc x acc) []

/-- Source: `propertyTypeStatsArray`: per-type count, average and range, sorted
descending by count. -/
def propertyTypeStatsArray (valid : List Property) : List TypeStat :=
  sortByCountDesc ((typeStatsTable valid).map (fun e => ⟨e.type, e.count, e.sum / (e.count : ℚ), e.min, e.max⟩))

/-- The statistics object assembled by the Dashboard. -/
structure Stats where
  count : ℕ
  averagePrice : ℚ
  averagePricePerSqm : ℚ
  averagePriceWithAct16 : ℚ
  averagePriceWithoutAct16 : ℚ
  averagePriceRenovated : ℚ
  typeStats : List TypeStat
deriving DecidableEq, Repr

/-- Statistics as a function of the `validProperties` array (the only input
the source computations read). -/
def statsFromValid (valid : List Property) : Stats :=
  ⟨valid.length,
   meanPriceOf valid,
   meanPricePerAreaOf (valid.filter areaPositive),
   meanPriceOf (valid.filter (fun p => act16Val p == some (some true))),
   meanPriceOf (valid.filter (fun p => act16Val p == some (some false))),
   meanPriceOf (valid.filter (fun p => renovVal p == some (some true))),
   propertyTypeStatsArray valid⟩

/-- The statistics of a record list. -/
def statsOf (l : List Property) : Stats :=
  statsFromValid (validProperties l)

/-- The whole aggregation pass: the statistics together with the records
after the in-place price coercion. -/
def aggregate (l : List Property) : Stats × List Property :=
  (statsOf l, processRecords l)

/-! ## Concrete records used by the scenario theorems and witnesses -/

/-- Scenario record `{price: 100000, area: 50, district: "Lozenets"}`. -/
def rLoz : Property :=
  ⟨"p1", some "APARTMENT", JSNum.num 100000, some 50, none,
   some ⟨none, some "Lozenets"⟩, none, []⟩

/-- Scenario record `{price: 200000, area: null, district: "2024"}`. -/
def rYear : Property :=
  ⟨"p2", some "APARTMENT", JSNum.num 200000, none, none,
   some ⟨none, some "2024"⟩, none, []⟩

/-- The two-record scenario list. -/
def demoPair : List Property := [rLoz, rYear]

/-- A record with district `"Lozenets 2"`. -/
def rLoz2 : Property :=
  ⟨"p3", some "APARTMENT", JSNum.num 150000, some 60, none,
   some ⟨none, some "Lozenets 2"⟩, none, []⟩

/-- A record with district `"Mladost"`. -/
def rMla : Property :=
  ⟨"p4", some "APARTMENT", JSNum.num 120000, some 70, none,
   some ⟨none, some "Mladost"⟩, none, []⟩

/-- Construction info with only `is_renovated` populated. -/
def ciRenov (b : Option Bool) : ConstructionInfo := ⟨none, b, none, none, none⟩

/-- A record with `is_renovated = true`. -/
def pRenT : Property :=
  ⟨"r1", some "APARTMENT", JSNum.num 100000, some 50, none, none, some (ciRenov (some true)), []⟩

/-- A record with `is_renovated = false`. -/
def pRenF : Property :=
  ⟨"r2", some "APARTMENT", JSNum.num 100000, some 50, none, none, some (ciRenov (some false)), []⟩

/-- A record with `is_renovated = null` (relation present, column empty). -/
def pRenN : Property :=
  ⟨"r3", some "APARTMENT", JSNum.num 100000, some 50, none, none, some (ciRenov none), []⟩

/-- A record with no construction relation at all (the field reads as
`undefined`). -/
def pNoCI : Property :=
  ⟨"r4", some "APARTMENT", JSNum.num 100000, some 50, none, none, none, []⟩

/-- A record lacking an area (`area_m2 = null`). -/
def rNoArea : Property :=
  ⟨"a0", some "APARTMENT", JSNum.num 90000, none, none, some ⟨none, some "Centre"⟩, none, []⟩

/-- A valid-price record whose `has_act16` is `null`. -/
def rNullAct : Property :=
  ⟨"n1", some "APARTMENT", JSNum.num 80000, some 40, none,
   some ⟨none, some "Ivan Vazov"⟩, some ⟨none, none, none, none, none⟩, []⟩

/-- Raw record: null area, English-labelled area feature. -/
def rawAreaEn : RawProperty :=
  ⟨"x1", none, JSNum.num 1, none, none, some ⟨none, some "D"⟩, none, some ["Area: 85.5 m2"]⟩

/-- Raw record: null area, Bulgarian-labelled area feature. -/
def rawAreaBg : RawProperty :=
  ⟨"x2", none, JSNum.num 1, none, none, some ⟨none, some "D"⟩, none, some ["Площ: 85.5 m2"]⟩

/-- Raw record: null price, feature `"120000 EUR"`. -/
def rawPriceEur : RawProperty :=
  ⟨"x3", none, JSNum.null, some 10, none, some ⟨none, some "D"⟩, none, some ["120000 EUR"]⟩

/-- Raw record: non-null price `0`, feature `"500 EUR"`. -/
def rawZeroPrice : RawProperty :=
  ⟨"x4", none, JSNum.num 0, some 10, none, some ⟨none, some "D"⟩, none, some ["500 EUR"]⟩

/-! ## C1: two-record aggregation scenario -/

/-- C1: on `[{price:100000, area:50, district:"Lozenets"},
{price:200000, area:null, district:"2024"}]` the aggregator counts one
valid record (the second is excluded by the leading-year district),
`meanPrice = 100000`, and `meanPricePerArea = 2000` (the mean of
price/area over valid records with a positive area). -/
theorem c1_two_record_scenario :
    (statsOf demoPair).count = 1 ∧
    (statsOf demoPair).averagePrice = 100000 ∧
    (statsOf demoPair).averagePricePerSqm = 2000 := by
  have h : validProperties demoPair = [rLoz] := by decide
  refine ⟨?_, ?_, ?_⟩
  · simp [statsOf, statsFromValid, h]
  · simp [statsOf, statsFromValid, h, meanPriceOf, sumPrices, priceQ, rLoz]
  · simp [statsOf, statsFromValid, h, meanPricePerAreaOf, areaPositive, areaOr1, priceQ, rLoz]
    norm_num

/-! ## C2: identity law for inactive filters -/

/-- C2: with every filter field empty, null, or an empty array, both the
Dashboard predicate filter and the home-page client-side filter chain
return the input list unchanged. -/
theorem c2_no_active_filters_identity (f : DashFilters) (g : PageFilters)
    (l : List Property)
    (h1 : f.district = "") (h2 : f.minYear = "") (h3 : f.maxYear = "")
    (h4 : f.isRenovated = none) (h5 : f.isFurnished = none)
    (h6 : f.minArea = "") (h7 : f.maxArea = "") (h8 : f.isPrivateSeller = none)
    (h9 : f.propertyType = [])
    (g1 : g.minYear = "") (g2 : g.maxYear = "") (g3 : g.isRenovated = none)
    (g4 : g.isFurnished = none) (g5 : g.hasAct16 = none)
    (g6 : g.minAct16Date = "") (g7 : g.maxAct16Date = "") :
    dashFilter f l = l ∧ pageClientFilter g l = l := by
  constructor
  · refine List.filter_eq_self.mpr (fun p _ => ?_)
    simp [dashKeep, dashDistrictCheck, dashTypeCheck, dashMinYearCheck,
      dashMaxYearCheck, dashRenovCheck, dashFurnCheck, dashMinAreaCheck,
      dashMaxAreaCheck, dashSellerCheck, h1, h2, h3, h4, h5, h6, h7, h8, h9]
  · simp [pageClientFilter, pageYearStep, pageRenovStep, pageFurnStep,
      pageAct16Step, pageMinDateStep, pageMaxDateStep, g1, g2, g3, g4, g5, g6, g7]

/-- The all-inactive Dashboard filter specification. -/
def emptyDashFilters : DashFilters := ⟨"", "", "", none, none, "", "", none, []⟩

/-- The all-inactive home-page filter specification. -/
def emptyPageFilters : PageFilters := ⟨"", "", none, none, none, "", ""⟩

/-- Witness for C2 at a concrete list and the all-empty specifications. -/
theorem c2_no_active_filters_identity_witness :
    dashFilter emptyDashFilters demoPair = demoPair ∧
    pageClientFilter emptyPageFilters demoPair = demoPair :=
  c2_no_active_filters_identity emptyDashFilters emptyPageFilters demoPair
    rfl rfl rfl rfl rfl rfl rfl rfl rfl rfl rfl rfl rfl rfl rfl rfl

/-! ## C3: tri-state boolean filters -/

/-- C3 counterexample: with `{isRenovated: true}` active, the home-page
renovation filter keeps a record whose renovation field does not equal the
selected value (its construction relation is absent, so the field reads as
`undefined`), refuting that the filter keeps exactly the records whose
boolean field equals the selected value. -/
theorem c3_tristate_counterexample :
    pageRenovStep (some true) [pNoCI] = [pNoCI] ∧
    renovVal pNoCI ≠ some (some true) := by
  constructor
  · decide
  · decide

/-- Dashboard filter with only the renovation tri-state active. -/
def dashTriRenov (b : Bool) : DashFilters := ⟨"", "", "", some b, none, "", "", none, []⟩

/-- Dashboard filter with only the furnishing tri-state active. -/
def dashTriFurn (b : Bool) : DashFilters := ⟨"", "", "", none, some b, "", "", none, []⟩

/-- C3 amended: the Dashboard tri-state filters keep exactly the records
whose boolean field strictly equals the selected value (null or absent
fields are dropped); the home-page steps additionally retain records whose
construction relation is absent; in the `{isRenovated: true}` scenario over
records with the field `true`, `false` and `null`, both keep only the
`true` record. -/
theorem c3_tristate_exact :
    (∀ (b : Bool) (l : List Property),
      dashFilter (dashTriRenov b) l = l.filter (fun p => renovVal p == some (some b)) ∧
      dashFilter (dashTriFurn b) l = l.filter (fun p => furnVal p == some (some b)) ∧
      pageRenovStep (some b) l =
        l.filter (fun p => p.construction_info == none || renovVal p == some (some b)) ∧
      pageFurnStep (some b) l =
        l.filter (fun p => p.construction_info == none || furnVal p == some (some b)) ∧
      pageAct16Step (some b) l =
        l.filter (fun p => p.construction_info == none || act16Val p == some (some b))) ∧
    dashFilter (dashTriRenov true) [pRenT, pRenF, pRenN] = [pRenT] ∧
    pageRenovStep (some true) [pRenT, pRenF, pRenN] = [pRenT] := by
  refine ⟨fun b l => ⟨?_, ?_, rfl, rfl, rfl⟩, by decide, by decide⟩
  · refine List.filter_congr (fun p _ => ?_)
    simp [dashKeep, dashDistrictCheck, dashTypeCheck, dashMinYearCheck,
      dashMaxYearCheck, dashRenovCheck, dashFurnCheck, dashMinAreaCheck,
      dashMaxAreaCheck, dashSellerCheck, dashTriRenov]
  · refine List.filter_congr (fun p _ => ?_)
    simp [dashKeep, dashDistrictCheck, dashTypeCheck, dashMinYearCheck,
      dashMaxYearCheck, dashRenovCheck, dashFurnCheck, dashMinAreaCheck,
      dashMaxAreaCheck, dashSellerCheck, dashTriFurn]

/-! ## C4: min/max area filter -/

/-- Dashboard filter with only the area bounds active. -/
def areaOnlyF (mnS mxS : String) : DashFilters := ⟨"", "", "", none, none, mnS, mxS, none, []⟩

/-- C4 counterexample: with `minArea = "50"` active, a record whose area is
null is retained by the Dashboard filter, refuting that records lacking an
area are dropped when an area filter is active. -/
theorem c4_null_area_counterexample :
    dashFilter (areaOnlyF "50" "") [rNoArea] = [rNoArea] ∧
    rNoArea.area_m2 = none := by
  constructor <;> decide

/-- C4 amended: whenever the active, parseable area bounds are the minimum
alone, the maximum alone, or both, the Dashboard filter keeps exactly the
records whose area is null or zero (the bound check is skipped, so they
are retained) together with those whose area lies inclusively within every
active bound. -/
theorem c4_area_bounds_amended (mnS mxS : String) (mn mx : ℚ) (l : List Property)
    (hmn : mnS ≠ "") (hmx : mxS ≠ "")
    (hpn : parseFloatJS mnS = some mn) (hpx : parseFloatJS mxS = some mx) :
    dashFilter (areaOnlyF mnS "") l =
      l.filter (fun p =>
        match p.area_m2 with
        | none => true
        | some a => if a = 0 then true else !decide (a < mn)) ∧
    dashFilter (areaOnlyF "" mxS) l =
      l.filter (fun p =>
        match p.area_m2 with
        | none => true
        | some a => if a = 0 then true else !decide (mx < a)) ∧
    dashFilter (areaOnlyF mnS mxS) l =
      l.filter (fun p =>
        match p.area_m2 with
        | none => true
        | some a => if a = 0 then true else !decide (a < mn) && !decide (mx < a)) := by
  refine ⟨?_, ?_, ?_⟩
  · refine List.filter_congr (fun p _ => ?_)
    cases harea : p.area_m2 with
    | none =>
      simp [dashKeep, dashDistrictCheck, dashTypeCheck, dashMinYearCheck,
        dashMaxYearCheck, dashRenovCheck, dashFurnCheck, dashMinAreaCheck,
        dashMaxAreaCheck, dashSellerCheck, areaOnlyF, hmn, harea]
    | some a =>
      by_cases ha : a = 0
      · simp [dashKeep, dashDistrictCheck, dashTypeCheck, dashMinYearCheck,
          dashMaxYearCheck, dashRenovCheck, dashFurnCheck, dashMinAreaCheck,
          dashMaxAreaCheck, dashSellerCheck, areaOnlyF, hmn, harea, ha]
      · simp [dashKeep, dashDistrictCheck, dashTypeCheck, dashMinYearCheck,
          dashMaxYearCheck, dashRenovCheck, dashFurnCheck, dashMinAreaCheck,
          dashMaxAreaCheck, dashSellerCheck, areaOnlyF, hmn, hpn, harea, ha]
  · refine List.filter_congr (fun p _ => ?_)
    cases harea : p.area_m2 with
    | none =>
      simp [dashKeep, dashDistrictCheck, dashTypeCheck, dashMinYearCheck,
        dashMaxYearCheck, dashRenovCheck, dashFurnCheck, dashMinAreaCheck,
        dashMaxAreaCheck, dashSellerCheck, areaOnlyF, hmx, harea]
    | some a =>
      by_cases ha : a = 0
      · simp [dashKeep, dashDistrictCheck, dashTypeCheck, dashMinYearCheck,
          dashMaxYearCheck, dashRenovCheck, dashFurnCheck, dashMinAreaCheck,
          dashMaxAreaCheck, dashSellerCheck, areaOnlyF, hmx, harea, ha]
      · simp [dashKeep, dashDistrictCheck, dashTypeCheck, dashMinYearCheck,
          dashMaxYearCheck, dashRenovCheck, dashFurnCheck, dashMinAreaCheck,
          dashMaxAreaCheck, dashSellerCheck, areaOnlyF, hmx, hpx, harea, ha]
  · refine List.filter_congr (fun p _ => ?_)
    cases harea : p.area_m2 with
    | none =>
      simp [dashKeep, dashDistrictCheck, dashTypeCheck, dashMinYearCheck,
        dashMaxYearCheck, dashRenovCheck, dashFurnCheck, dashMinAreaCheck,
        dashMaxAreaCheck, dashSellerCheck, areaOnlyF, hmn, hmx, harea]
    | some a =>
      by_cases ha : a = 0
      · simp [dashKeep, dashDistrictCheck, dashTypeCheck, dashMinYearCheck,
          dashMaxYearCheck, dashRenovCheck, dashFurnCheck, dashMinAreaCheck,
          dashMaxAreaCheck, dashSellerCheck, areaOnlyF, hmn, hmx, harea, ha]
      · simp [dashKeep, dashDistrictCheck, dashTypeCheck, dashMinYearCheck,
          dashMaxYearCheck, dashRenovCheck, dashFurnCheck, dashMinAreaCheck,
          dashMaxAreaCheck, dashSellerCheck, areaOnlyF, hmn, hmx, hpn, hpx, harea, ha]

/-- The list used by the C4 witness. -/
def demoAreaList : List Property := [rLoz, rLoz2, rMla, rNoArea]

/-- Witness for C4 at bounds 50–65, in the min-only, max-only and
two-bound configurations: the 50 and 60 areas pass inclusively where in
range, 70 is dropped by the upper bound, and the null-area record is
always retained. -/
theorem c4_area_bounds_amended_witness :
    dashFilter (areaOnlyF "50" "") demoAreaList =
      demoAreaList.filter (fun p =>
        match p.area_m2 with
        | none => true
        | some a => if a = 0 then true else !decide (a < 50)) ∧
    dashFilter (areaOnlyF "" "65") demoAreaList =
      demoAreaList.filter (fun p =>
        match p.area_m2 with
        | none => true
        | some a => if a = 0 then true else !decide (65 < a)) ∧
    dashFilter (areaOnlyF "50" "65") demoAreaList =
      demoAreaList.filter (fun p =>
        match p.area_m2 with
        | none => true
        | some a => if a = 0 then true else !decide (a < 50) && !decide (65 < a)) :=
  c4_area_bounds_amended "50" "65" 50 65 demoAreaList
    (by decide) (by decide) (by decide) (by decide)

/-! ## C5: district filter -/

/-- Dashboard filter with only the district text active. -/
def districtOnlyF (d : String) : DashFilters := ⟨d, "", "", none, none, "", "", none, []⟩

/-- C5 counterexample: district search `"Lozenets"` retains only the record
whose district is exactly `"Lozenets"`; the `"Lozenets 2"` record is
excluded, refuting the substring/prefix-match scenario. -/
theorem c5_substring_counterexample :
    dashFilter (districtOnlyF "Lozenets") [rLoz, rLoz2, rMla] = [rLoz] ∧
    rLoz2 ∉ dashFilter (districtOnlyF "Lozenets") [rLoz, rLoz2, rMla] := by
  constructor <;> decide

/-- C5 amended: the Dashboard district filter matches by exact string
equality on the location's district, so only the exact `"Lozenets"` record
is retained in the scenario. -/
theorem c5_district_exact_equality (d : String) (l : List Property) (hd : d ≠ "") :
    dashFilter (districtOnlyF d) l = l.filter (fun p => locDistrict p == some d) := by
  refine List.filter_congr (fun p _ => ?_)
  simp [dashKeep, dashDistrictCheck, dashTypeCheck, dashMinYearCheck,
    dashMaxYearCheck, dashRenovCheck, dashFurnCheck, dashMinAreaCheck,
    dashMaxAreaCheck, dashSellerCheck, districtOnlyF, hd]

/-- Witness for C5 at the scenario inputs. -/
theorem c5_district_exact_equality_witness :
    dashFilter (districtOnlyF "Lozenets") [rLoz, rLoz2, rMla] =
      [rLoz, rLoz2, rMla].filter (fun p => locDistrict p == some "Lozenets") :=
  c5_district_exact_equality "Lozenets" [rLoz, rLoz2, rMla] (by decide)

/-! ## C6: feature-text extraction scenarios -/

/-- C6 counterexample: the feature text `"Area: 85.5 m2"` does not carry
the Bulgarian label the area pattern requires, so the normalizer leaves a
null area null instead of extracting `85.5`. -/
theorem c6_english_label_counterexample :
    (transform rawAreaEn).area_m2 = none ∧
    (transform rawAreaEn).area_m2 ≠ some (171 / 2) := by
  have h : (transform rawAreaEn).area_m2 = none := by decide
  exact ⟨h, by rw [h]; simp⟩

/-- C6 amended: the area fallback requires the Bulgarian label, so
`"Площ: 85.5 m2"` with a null area yields `85.5`, while `"Area: 85.5 m2"`
matches nothing; `"120000 EUR"` with a null price yields price `120000`. -/
theorem c6_extraction_amended :
    (transform rawAreaBg).area_m2 = some (171 / 2) ∧
    (transform rawPriceEur).price_value = JSNum.num 120000 := by
  constructor
  · have h : (transform rawAreaBg).area_m2 =
        some (((85 : ℕ) : ℚ) + ((5 : ℕ) : ℚ) / (10 : ℚ) ^ 1) := rfl
    rw [h]; norm_num
  · decide

/-! ## C7: first-match-wins and fallback candidacy -/

/-- C7 counterexample: a record whose price is the non-null number `0` is
still a fallback candidate — the feature `"500 EUR"` overwrites it —
refuting that only null fields are candidates and that non-null fields are
kept unchanged. -/
theorem c7_nonnull_overwritten_counterexample :
    rawZeroPrice.price_value ≠ JSNum.null ∧
    (transform rawZeroPrice).price_value = JSNum.num 500 ∧
    (transform rawZeroPrice).price_value ≠ rawZeroPrice.price_value := by
  refine ⟨by decide, by decide, by decide⟩

/-- A truthy price local is never changed by one loop iteration. -/
theorem extractStep_price_stable (st : ExtractState) (f : String)
    (h : st.price.truthy = true) : (extractStep st f).price = st.price := by
  simp [extractStep, h]

/-- A truthy area local is never changed by one loop iteration. -/
theorem extractStep_area_stable (st : ExtractState) (f : String)
    (h : optQTruthy st.area = true) : (extractStep st f).area = st.area := by
  simp [extractStep, h]

/-- A truthy district local is never changed by one loop iteration. -/
theorem extractStep_district_stable (st : ExtractState) (f : String)
    (h : optStrTruthy st.district = true) : (extractStep st f).district = st.district := by
  simp [extractStep, h]

/-- A truthy price local survives the whole feature loop. -/
theorem foldl_price_stable (fs : List String) (st : ExtractState)
    (h : st.price.truthy = true) : (fs.foldl extractStep st).price = st.price := by
  induction fs generalizing st with
  | nil => rfl
  | cons f fs ih =>
    have h1 : (extractStep st f).price = st.price := extractStep_price_stable st f h
    have h2 : (extractStep st f).price.truthy = true := by rw [h1]; exact h
    rw [List.foldl_cons, ih (extractStep st f) h2, h1]

/-- A truthy area local survives the whole feature loop. -/
theorem foldl_area_stable (fs : List String) (st : ExtractState)
    (h : optQTruthy st.area = true) : (fs.foldl extractStep st).area = st.area := by
  induction fs generalizing st with
  | nil => rfl
  | cons f fs ih =>
    have h1 : (extractStep st f).area = st.area := extractStep_area_stable st f h
    have h2 : optQTruthy (extractStep st f).area = true := by rw [h1]; exact h
    rw [List.foldl_cons, ih (extractStep st f) h2, h1]

/-- A truthy district local survives the whole feature loop. -/
theorem foldl_district_stable (fs : List String) (st : ExtractState)
    (h : optStrTruthy st.district = true) :
    (fs.foldl extractStep st).district = st.district := by
  induction fs generalizing st with
  | nil => rfl
  | cons f fs ih =>
    have h1 : (extractStep st f).district = st.district := extractStep_district_stable st f h
    have h2 : optStrTruthy (extractStep st f).district = true := by rw [h1]; exact h
    rw [List.foldl_cons, ih (extractStep st f) h2, h1]

/-- C7 amended: extraction is first-truthy-match-wins per field — once a
field local holds a truthy value (non-null and nonzero/nonempty), later
features never change it — and a field is a fallback candidate exactly
while falsy, so a record whose price or area is truthy, or whose location
relation is present, keeps it unchanged (a non-null but zero price remains
a candidate, as the counterexample shows). -/
theorem c7_first_truthy_match_amended :
    (∀ (st : ExtractState) (fs : List String),
      (st.price.truthy = true → (fs.foldl extractStep st).price = st.price) ∧
      (optQTruthy st.area = true → (fs.foldl extractStep st).area = st.area) ∧
      (optStrTruthy st.district = true → (fs.foldl extractStep st).district = st.district)) ∧
    (∀ r : RawProperty,
      (r.price_value.truthy = true → (transform r).price_value = r.price_value) ∧
      (optQTruthy r.area_m2 = true → (transform r).area_m2 = r.area_m2) ∧
      (r.location ≠ none → (transform r).location = r.location)) := by
  constructor
  · exact fun st fs =>
      ⟨foldl_price_stable fs st, foldl_area_stable fs st, foldl_district_stable fs st⟩
  · intro r
    refine ⟨?_, ?_, ?_⟩
    · intro h
      show (extractFields r).price = r.price_value
      unfold extractFields
      cases hf : r.features with
      | none => rfl
      | some fs => exact foldl_price_stable fs ⟨r.price_value, r.area_m2, r.location.bind Location.district⟩ h
    · intro h
      show (extractFields r).area = r.area_m2
      unfold extractFields
      cases hf : r.features with
      | none => rfl
      | some fs => exact foldl_area_stable fs ⟨r.price_value, r.area_m2, r.location.bind Location.district⟩ h
    · intro h
      show (match r.location with
        | some loc => some loc
        | none => if optStrTruthy (extractFields r).district then
            some ⟨none, (extractFields r).district⟩ else none) = r.location
      cases hl : r.location with
      | none => exact absurd hl h
      | some loc => rfl

/-- A raw record whose price and area are already truthy and whose location
is present. -/
def rawKeep : RawProperty :=
  ⟨"k1", none, JSNum.num 77, some 3, none, some ⟨none, some "D"⟩, none,
   some ["500 EUR", "Площ: 9 m2"]⟩

/-- Witness for C7 at concrete states and a concrete record. -/
theorem c7_first_truthy_match_amended_witness :
    ((["9 EUR"].foldl extractStep ⟨JSNum.num 5, some 3, some "X"⟩).price = JSNum.num 5) ∧
    ((["Площ: 7 m2"].foldl extractStep ⟨JSNum.num 5, some 3, some "X"⟩).area = some 3) ∧
    ((["Sofia, centre"].foldl extractStep ⟨JSNum.num 5, some 3, some "X"⟩).district = some "X") ∧
    (transform rawKeep).price_value = rawKeep.price_value ∧
    (transform rawKeep).area_m2 = rawKeep.area_m2 ∧
    (transform rawKeep).location = rawKeep.location :=
  ⟨(c7_first_truthy_match_amended.1 ⟨JSNum.num 5, some 3, some "X"⟩ ["9 EUR"]).1 (by decide),
   (c7_first_truthy_match_amended.1 ⟨JSNum.num 5, some 3, some "X"⟩ ["Площ: 7 m2"]).2.1 (by decide),
   (c7_first_truthy_match_amended.1 ⟨JSNum.num 5, some 3, some "X"⟩ ["Sofia, centre"]).2.2 (by decide),
   (c7_first_truthy_match_amended.2 rawKeep).1 (by decide),
   (c7_first_truthy_match_amended.2 rawKeep).2.1 (by decide),
   (c7_first_truthy_match_amended.2 rawKeep).2.2 (by decide)⟩

/-! ## Coercion lemmas shared by the aggregator claims -/

/-- Re-checking validity after the stored-back coercion gives the same
answer (the stored price is the coerced value and the district is untouched). -/
theorem hasValidPrice_setPriceNum (p : Property) (q : ℚ)
    (hc : coercePrice p.price_value = some q) :
    hasValidPrice (setPriceNum p q) = hasValidPrice p := by
  show (decide (0 < q) && !districtYearFlag (setPriceNum p q)) = hasValidPrice p
  unfold hasValidPrice
  rw [hc]
  rfl

/-- Validity is invariant under the in-place price coercion. -/
theorem hasValidPrice_coerceRecord (p : Property) :
    hasValidPrice (coerceRecord p) = hasValidPrice p := by
  unfold coerceRecord
  cases hc : coercePrice p.price_value with
  | none => rfl
  | some q =>
    show hasValidPrice (if hasValidPrice p then setPriceNum p q else p) = hasValidPrice p
    by_cases hv : hasValidPrice p
    · rw [if_pos hv]
      exact hasValidPrice_setPriceNum p q hc
    · rw [if_neg hv]

/-- The coercion never changes a record's id. -/
theorem coerceRecord_id (p : Property) : (coerceRecord p).id = p.id := by
  unfold coerceRecord
  cases coercePrice p.price_value with
  | none => rfl
  | some q =>
    show (if hasValidPrice p then setPriceNum p q else p).id = p.id
    by_cases hv : hasValidPrice p
    · rw [if_pos hv]; rfl
    · rw [if_neg hv]

/-- The in-place string-to-number price coercion is idempotent. -/
theorem coerceRecord_idem (p : Property) :
    coerceRecord (coerceRecord p) = coerceRecord p := by
  have hb : coerceRecord p = p ∨
      ∃ q, coercePrice p.price_value = some q ∧ hasValidPrice p = true ∧
        coerceRecord p = setPriceNum p q := by
    unfold coerceRecord
    cases hc : coercePrice p.price_value with
    | none => exact Or.inl rfl
    | some q =>
      by_cases hv : hasValidPrice p
      · refine Or.inr ⟨q, rfl, by simpa using hv, ?_⟩
        show (if hasValidPrice p then setPriceNum p q else p) = setPriceNum p q
        rw [if_pos hv]
      · refine Or.inl ?_
        show (if hasValidPrice p then setPriceNum p q else p) = p
        rw [if_neg hv]
  rcases hb with he | ⟨q, hc, hv, he⟩
  · rw [he]; exact he
  · rw [he]
    have hv2 : hasValidPrice (setPriceNum p q) = true := by
      rw [hasValidPrice_setPriceNum p q hc]; exact hv
    unfold coerceRecord
    have hc2 : coercePrice (setPriceNum p q).price_value = some q := rfl
    rw [hc2]
    simp [hv2, setPriceNum]

/-- A second aggregation pass leaves the record list unchanged. -/
theorem processRecords_idem : ∀ l : List Property,
    processRecords (processRecords l) = processRecords l
  | [] => rfl
  | p :: l => by
    show coerceRecord (coerceRecord p) :: processRecords (processRecords l) =
      coerceRecord p :: processRecords l
    rw [coerceRecord_idem, processRecords_idem l]

/-- The valid subset is the same whether computed from the raw list or from
the coerced list. -/
theorem validProperties_processRecords (l : List Property) :
    validProperties (processRecords l) = validProperties l := by
  unfold validProperties
  rw [processRecords_idem]

/-- The coercion pass preserves the id sequence (hence length and order). -/
theorem processRecords_map_id : ∀ l : List Property,
    (processRecords l).map Property.id = l.map Property.id
  | [] => rfl
  | p :: l => by
    show (coerceRecord p).id :: (processRecords l).map Property.id =
      p.id :: l.map Property.id
    rw [coerceRecord_id, processRecords_map_id l]

/-! ## C8: zero valid records -/

/-- C8: when no record is valid (including the empty list) the aggregator
returns count `0`, zero means, zero grouped averages and an empty per-type
table; every division is guarded, and the embedding is total, so nothing
is thrown. -/
theorem c8_zero_valid_records (l : List Property)
    (h : ∀ p ∈ l, hasValidPrice p = false) :
    statsOf l = ⟨0, 0, 0, 0, 0, 0, []⟩ := by
  have hnil : validProperties l = [] := by
    refine List.filter_eq_nil_iff.mpr ?_
    intro a ha
    simp only [processRecords, List.mem_map] at ha
    obtain ⟨p, hp, rfl⟩ := ha
    rw [hasValidPrice_coerceRecord]
    simp [h p hp]
  show statsFromValid (validProperties l) = _
  rw [hnil]
  rfl

/-- Witness for C8 at the year-like-district record (invalid) and so also
at a non-empty list. -/
theorem c8_zero_valid_records_witness :
    (∀ p ∈ [rYear], hasValidPrice p = false) ∧
    statsOf [rYear] = ⟨0, 0, 0, 0, 0, 0, []⟩ :=
  ⟨by decide, c8_zero_valid_records [rYear] (by decide)⟩

/-! ## C9: purity, order preservation, idempotent coercion -/

/-- C9: aggregation keeps the input records in order (the id sequence of
the returned list equals the input's), a second aggregation pass over the
updated records returns identical statistics and records, and the
string-to-number price coercion is idempotent per record. -/
theorem c9_aggregation_pure_and_idempotent (l : List Property) :
    aggregate ((aggregate l).2) = aggregate l ∧
    ((aggregate l).2).map Property.id = l.map Property.id ∧
    ∀ p : Property, coerceRecord (coerceRecord p) = coerceRecord p := by
  refine ⟨?_, processRecords_map_id l, coerceRecord_idem⟩
  show (statsOf (processRecords l), processRecords (processRecords l)) =
    (statsOf l, processRecords l)
  rw [processRecords_idem,
    show statsOf (processRecords l) = statsOf l from by
      unfold statsOf; rw [validProperties_processRecords]]

/-! ## C10: Act-16 partition -/

/-- C10: the "with Act 16" group is exactly the valid records whose flag is
strictly `true`, the "without" group exactly those with strictly `false`;
a record whose flag is neither (null column or absent relation) is in
neither group, and on a concrete list the two group counts sum to less
than the valid count. -/
theorem c10_act16_partition (l : List Property) (p : Property) :
    (p ∈ propertiesWithAct16 l ↔ p ∈ validProperties l ∧ act16Val p = some (some true)) ∧
    (p ∈ propertiesWithoutAct16 l ↔ p ∈ validProperties l ∧ act16Val p = some (some false)) ∧
    (act16Val p ≠ some (some true) → p ∉ propertiesWithAct16 l) ∧
    (act16Val p ≠ some (some false) → p ∉ propertiesWithoutAct16 l) ∧
    (propertiesWithAct16 [rNullAct]).length + (propertiesWithoutAct16 [rNullAct]).length
      < (validProperties [rNullAct]).length := by
  have h1 : p ∈ propertiesWithAct16 l ↔
      p ∈ validProperties l ∧ act16Val p = some (some true) := by
    unfold propertiesWithAct16
    rw [List.mem_filter]
    simp
  have h2 : p ∈ propertiesWithoutAct16 l ↔
      p ∈ validProperties l ∧ act16Val p = some (some false) := by
    unfold propertiesWithoutAct16
    rw [List.mem_filter]
    simp
  exact ⟨h1, h2, fun hne hmem => hne ((h1.mp hmem).2),
    fun hne hmem => hne ((h2.mp hmem).2), by decide⟩

/-- Witness for C10: the null-flag valid record is in neither group. -/
theorem c10_act16_partition_witness :
    rNullAct ∉ propertiesWithAct16 [rNullAct] ∧
    rNullAct ∉ propertiesWithoutAct16 [rNullAct] :=
  ⟨(c10_act16_partition [rNullAct] rNullAct).2.2.1 (by decide),
   (c10_act16_partition [rNullAct] rNullAct).2.2.2.1 (by decide)⟩
